import Mathlib

/-
Verification development for the cortex parsers module
(src/cortex/parsers/parsers.py).

The module is a registry of named "parser" transforms (pose, color_image,
depth_image, feelings), a dispatcher that runs a transform on a raw message
body, and a broker-driven service loop that republishes non-rejected results.

Shallow embedding conventions:
- A decoded JSON value is `JVal`; a raw message body is `RawBody`, which is
  either a JSON-decodable value or `malformed` (in which case `json.loads`
  raises, modelled as an uncaught `PyErr.decodeError`).
- Python dicts are association lists with first-match lookup.
- A transform returns a `TOut`: an `Outcome` (an encoded result record,
  `rejected` for a `return None`, or `exn e` for an exception that escapes
  the function) together with the list of filesystem `Effect`s it performed.
- External I/O (reading the color bytes, reading and JSON-decoding the depth
  data file, whether saving an artifact succeeds) is a `World` capability,
  matching the spec's treatment of these as external collaborators.
- Logging is scaffolding excluded from the core; its observable relevance is
  only that the `logging.debug` call at the top of every transform evaluates
  `snapshot_json["user_id"]` and `snapshot_json["datetime"]` outside any
  `try`, which is modelled faithfully (see `prologue`).
-/

namespace Cortex

/-- A JSON value as produced by `json.loads`. Numbers are modelled as `Int`;
no transform in scope performs arithmetic on field values, it only moves
them between records, so the numeric carrier is irrelevant to behavior. -/
inductive JVal where
  | null
  | bool (b : Bool)
  | num (n : Int)
  | str (s : String)
  | arr (elems : List JVal)
  | obj (fields : List (String × JVal))

/-- A decoded JSON object: an ordered mapping from field names to values. -/
abbrev JObj := List (String × JVal)

/-- Python exceptions that the module's code paths can raise or catch. -/
inductive PyErr where
  | keyError (k : String)
  | typeError
  | decodeError
  | osError

/-- Result of opening and JSON-decoding a data file (depth_image path):
the open/read can fail with OSError, or `json.loads` on the contents can
raise a decode error (which the transform does not catch). -/
inductive ReadErr where
  | osError
  | decodeError

/-- A raw message body as consumed from the broker or read from a file:
either it decodes to a JSON value or `json.loads` raises on it. -/
inductive RawBody where
  | malformed
  | value (v : JVal)

/-- What a transform invocation produces: an encoded result record
(`json.dumps` of the result dict, kept at record level since dumps is
injective on records), a `return None` rejection, or an exception that
escapes the transform. -/
inductive Outcome where
  | ok (result : JObj)
  | rejected
  | exn (e : PyErr)

/-- Filesystem side effects a transform performs, in order. -/
inductive Effect where
  | mkdirP (dir : String)
  | saveImage (path : String)
  | renderHeatmap (rows : List (List JVal)) (path : String)

/-- Full observable result of one transform invocation. -/
structure TOut where
  outcome : Outcome
  effects : List Effect

/-- External I/O capabilities consumed by the transforms: reading raw bytes
(`open(path, "rb").read()`), reading and JSON-decoding a text file
(`json.loads(open(path).read())`), and whether saving an artifact at a given
path succeeds (a failing save raises OSError in the source). -/
structure World where
  readBytes : String → Except Unit String
  readJson : String → Except ReadErr JVal
  saveOk : String → Bool

/-- The type of a registered transform, `PARSERS` values in the source. -/
abbrev Transform := World → RawBody → TOut

/-- Inbound direct exchange name (`EXCHANGE_NAME` in the source). -/
def EXCHANGE_NAME : String := "snapshot"

/-- Outbound topic exchange name (`EXCHANGE_PUBLISH` in the source). -/
def EXCHANGE_PUBLISH : String := "processed_data"

/-- Root directory for derived artifacts (`PROCESSED_DIRECTORY`). In the
source it is an absolute path computed from `__file__`; only its identity
matters here, so the install-dependent prefix is dropped. -/
def PROCESSED_DIRECTORY : String := "files/processed"

/-- Python subscription `v[k]` on a decoded JSON value: KeyError when the
object lacks the key, TypeError when the value is not a dict. -/
def jGet (v : JVal) (k : String) : Except PyErr JVal :=
  match v with
  | .obj fields =>
    match fields.lookup k with
    | some x => .ok x
    | none => .error (.keyError k)
  | _ => .error .typeError

/-- Coercion of a JSON value to a string where Python requires one
(e.g. `open(path)`); TypeError otherwise. -/
def asStr (v : JVal) : Except PyErr String :=
  match v with
  | .str s => .ok s
  | _ => .error .typeError

/-- Coercion of a JSON value to an integer where Python requires one
(`range(height)`, slice indices); TypeError otherwise. -/
def asInt (v : JVal) : Except PyErr Int :=
  match v with
  | .num n => .ok n
  | _ => .error .typeError

/-- Coercion of a JSON value to a sliceable array; TypeError otherwise. -/
def asArr (v : JVal) : Except PyErr (List JVal) :=
  match v with
  | .arr xs => .ok xs
  | _ => .error .typeError

/-- Python `str()` of a JSON value as used in `"...".format(...)` when
building artifact paths. Exact for strings and integers (the types that
occur in correlation keys); container reprs are abbreviated since no
behavior in scope depends on them. -/
def pyStr : JVal → String
  | .str s => s
  | .num n => toString n
  | .bool b => if b then "True" else "False"
  | .null => "None"
  | .arr _ => "[list]"
  | .obj _ => "[dict]"

/-- Clamp one bound of a Python slice `xs[a:b]` to a valid index:
negative indices count from the end (and floor at 0), nonnegative ones
are capped at the length. -/
def pyIndex (len : Nat) (i : Int) : Nat :=
  if i < 0 then (i + len).toNat else min i.toNat len

/-- Python list slice `xs[a:b]` with integer bounds. -/
def pySlice {α : Type} (xs : List α) (a b : Int) : List α :=
  (xs.take (pyIndex xs.length b)).drop (pyIndex xs.length a)

/-- The code every transform runs before its `try` block:
`snapshot_json = json.loads(data)` followed by the `logging.debug` call that
subscripts `snapshot_json["user_id"]` and `snapshot_json["datetime"]`.
Any error raised here escapes the transform uncaught. -/
def prologue : RawBody → Except PyErr (JVal × JVal × JVal)
  | .malformed => .error .decodeError
  | .value v =>
    match jGet v "user_id" with
    | .error e => .error e
    | .ok u =>
      match jGet v "datetime" with
      | .error e => .error e
      | .ok d => .ok (v, u, d)

/-- Evaluation of a result-dict literal `{out1: snapshot_json[in1], ...}`:
entries are evaluated left to right and the first failing subscription
raises. -/
def remapFields (v : JVal) : List (String × String) → Except PyErr JObj
  | [] => .ok []
  | (outk, ink) :: rest =>
    match jGet v ink with
    | .error e => .error e
    | .ok x =>
      match remapFields v rest with
      | .error e => .error e
      | .ok xs => .ok ((outk, x) :: xs)

/-- An `except KeyError: return None` handler around a try body
(pose, feelings): KeyError degrades to rejection, anything else escapes. -/
def catchKeyError : Except PyErr JObj → Outcome
  | .ok r => .ok r
  | .error (.keyError _) => .rejected
  | .error e => .exn e

/-- The handlers `except KeyError: return None` and
`except (OSError, IOError): return None` around a try body
(color_image, depth_image). -/
def catchKeyOrOS : Except PyErr JObj → Outcome
  | .ok r => .ok r
  | .error (.keyError _) => .rejected
  | .error .osError => .rejected
  | .error e => .exn e

/-- Output-field to input-field mapping of the pose result dict, in source
order. -/
def poseFields : List (String × String) :=
  [("user_id", "user_id"), ("datetime", "datetime"),
   ("rotation_x", "pose_rotation_x"), ("rotation_y", "pose_rotation_y"),
   ("rotation_z", "pose_rotation_z"), ("rotation_w", "pose_rotation_w"),
   ("translation_x", "pose_translation_x"), ("translation_y", "pose_translation_y"),
   ("translation_z", "pose_translation_z")]

/-- The pose transform: logging prologue, then a remapping dict literal
inside `try ... except KeyError: return None`. No filesystem effects. -/
def pose (_w : World) (data : RawBody) : TOut :=
  match prologue data with
  | .error e => ⟨.exn e, []⟩
  | .ok (v, _, _) => ⟨catchKeyError (remapFields v poseFields), []⟩

/-- Output-field to input-field mapping of the feelings result dict. -/
def feelingsFields : List (String × String) :=
  [("user_id", "user_id"), ("datetime", "datetime"),
   ("happiness", "happiness"), ("thirst", "thirst"),
   ("hunger", "hunger"), ("exhaustion", "exhaustion")]

/-- The feelings transform: same shape as pose with its four fields. -/
def feelings (_w : World) (data : RawBody) : TOut :=
  match prologue data with
  | .error e => ⟨.exn e, []⟩
  | .ok (v, _, _) => ⟨catchKeyError (remapFields v feelingsFields), []⟩

/-- Deterministic artifact path for a color image,
`"{}/{}_{}_color.jpg".format(PROCESSED_DIRECTORY, user_id, datetime)`. -/
def colorFinalPath (u d : JVal) : String :=
  PROCESSED_DIRECTORY ++ "/" ++ pyStr u ++ "_" ++ pyStr d ++ "_color.jpg"

/-- The try body of color_image, in source order: read the path field, open
and read the raw bytes, create the processed directory, build the final
path, read the width and height fields, build the image and save it, and
return the result dict. Returns the body's outcome plus the effects
performed up to the point of any failure. -/
def color_image_body (w : World) (v u d : JVal) : Except PyErr JObj × List Effect :=
  match jGet v "color_image_path" with
  | .error e => (.error e, [])
  | .ok pv =>
    match asStr pv with
    | .error e => (.error e, [])
    | .ok p =>
      match w.readBytes p with
      | .error _ => (.error .osError, [])
      | .ok _bytes =>
        match jGet v "color_image_width", jGet v "color_image_height" with
        | .error e, _ => (.error e, [.mkdirP PROCESSED_DIRECTORY])
        | .ok _, .error e => (.error e, [.mkdirP PROCESSED_DIRECTORY])
        | .ok wd, .ok ht =>
          if w.saveOk (colorFinalPath u d) then
            (.ok [("user_id", u), ("datetime", d),
                  ("color_image_path", .str (colorFinalPath u d)),
                  ("height", ht), ("width", wd)],
             [.mkdirP PROCESSED_DIRECTORY, .saveImage (colorFinalPath u d)])
          else
            (.error .osError, [.mkdirP PROCESSED_DIRECTORY])

/-- The color_image transform. -/
def color_image (w : World) (data : RawBody) : TOut :=
  match prologue data with
  | .error e => ⟨.exn e, []⟩
  | .ok (v, u, d) =>
    ⟨catchKeyOrOS (color_image_body w v u d).1, (color_image_body w v u d).2⟩

/-- Deterministic artifact path for a depth image,
`"{}/{}_{}_depth.jpg".format(PROCESSED_DIRECTORY, user_id, datetime)`. -/
def depthFinalPath (u d : JVal) : String :=
  PROCESSED_DIRECTORY ++ "/" ++ pyStr u ++ "_" ++ pyStr d ++ "_depth.jpg"

/-- The reshape loop of depth_image:
`for i in range(height): new_array.append(image_array[(i*width):(i*width)+(width-1)])`.
The height is type-checked by `range`; the width's type is only demanded by
the first slice, so it goes unchecked when the loop body never runs. -/
def depthRows (arr : List JVal) (wv hv : JVal) : Except PyErr (List (List JVal)) :=
  match asInt hv with
  | .error e => .error e
  | .ok h =>
    if h.toNat = 0 then .ok []
    else
      match asInt wv with
      | .error e => .error e
      | .ok wd =>
        .ok ((List.range h.toNat).map fun i =>
          pySlice arr (Int.ofNat i * wd) (Int.ofNat i * wd + (wd - 1)))

/-- The try body of depth_image, in source order: read the path field, open
the file and JSON-decode it, extract its "data" array, build the final
path, read the width and height fields, reshape, create the processed
directory, render the heat map to the final path, and return the result
dict. -/
def depth_image_body (w : World) (v u d : JVal) : Except PyErr JObj × List Effect :=
  match jGet v "depth_image_path" with
  | .error e => (.error e, [])
  | .ok pv =>
    match asStr pv with
    | .error e => (.error e, [])
    | .ok p =>
      match w.readJson p with
      | .error .osError => (.error .osError, [])
      | .error .decodeError => (.error .decodeError, [])
      | .ok content =>
        match jGet content "data" with
        | .error e => (.error e, [])
        | .ok av =>
          match jGet v "depth_image_width", jGet v "depth_image_height" with
          | .error e, _ => (.error e, [])
          | .ok _, .error e => (.error e, [])
          | .ok wv, .ok hv =>
            match asArr av with
            | .error e => (.error e, [])
            | .ok arr =>
              match depthRows arr wv hv with
              | .error e => (.error e, [])
              | .ok rows =>
                if w.saveOk (depthFinalPath u d) then
                  (.ok [("user_id", u), ("datetime", d), ("height", hv),
                        ("width", wv), ("depth_image_path", .str (depthFinalPath u d))],
                   [.mkdirP PROCESSED_DIRECTORY,
                    .renderHeatmap rows (depthFinalPath u d)])
                else
                  (.error .osError, [.mkdirP PROCESSED_DIRECTORY])

/-- The depth_image transform. -/
def depth_image (w : World) (data : RawBody) : TOut :=
  match prologue data with
  | .error e => ⟨.exn e, []⟩
  | .ok (v, u, d) =>
    ⟨catchKeyOrOS (depth_image_body w v u d).1, (depth_image_body w v u d).2⟩

/-- Python dict assignment `d[k] = x` as performed by the `parser`
decorator on the global `PARSERS` dict: replaces the binding in place if
the key is present, appends otherwise. It is total; there is no failure
path. -/
def dictAssign {α : Type} : List (String × α) → String → α → List (String × α)
  | [], k, x => [(k, x)]
  | (k0, v0) :: rest, k, x =>
    if k0 = k then (k, x) :: rest else (k0, v0) :: dictAssign rest k x

/-- The global PARSERS registry, built by the four `@parser` decorator
applications in source order. -/
def PARSERS : List (String × Transform) :=
  dictAssign (dictAssign (dictAssign (dictAssign [] "pose" pose)
    "color_image" color_image) "depth_image" depth_image) "feelings" feelings

/-- Models `run_parser` from the source: look the name up in PARSERS and
invoke the transform (a missing name would raise KeyError on the dict). -/
def run_parser_once (w : World) (name : String) (data : RawBody) : TOut :=
  match PARSERS.lookup name with
  | some t => t w data
  | none => ⟨.exn (.keyError name), []⟩

/-- The list of registered names printed by `error_list_parsers`, in
registry order. -/
def error_list_parsers : List String := PARSERS.map Prod.fst

/-- Observable outcome of the process entry wrapper. -/
inductive WrapOut where
  | exited (listedNames : List String) (exitCode : Nat)
  | ran (out : TOut)
  | service

/-- Models `run_parser_wrapper`: an unknown name prints the registered
names and terminates the process with a non-zero status (in the source via
`sys.exit(1)`; `sys` is in fact never imported, so the line raises an
uncaught NameError, which also terminates the interpreter with status 1
after the list has been printed). A known name dispatches. The one-shot
file read and the broker setup are external collaborators. -/
def run_parser_wrapper (name : String) (w : World) (data : RawBody)
    (action : String) : WrapOut :=
  if (PARSERS.lookup name).isNone then
    .exited error_list_parsers 1
  else if action == "once" then
    .ran (run_parser_once w name data)
  else
    .service

/-- One message published to the broker. -/
structure PubMsg where
  exchange : String
  routingKey : String
  body : JObj

/-- Observable outcome of one `parser_callback` invocation: the messages it
published and the exception, if any, that escaped it. -/
structure CallbackOut where
  publishes : List PubMsg
  exn : Option PyErr

/-- Models `parser_callback`: run the transform; on `None` return without
publishing; otherwise `json.loads` the result and read its `user_id` and
`datetime` for logging (a KeyError here would escape), then publish the
result on `EXCHANGE_PUBLISH` with the transform name as routing key. An
exception from the transform escapes the callback. -/
def parser_callback (w : World) (name : String) (body : RawBody) : CallbackOut :=
  match (run_parser_once w name body).outcome with
  | .rejected => ⟨[], none⟩
  | .exn e => ⟨[], some e⟩
  | .ok r =>
    match r.lookup "user_id", r.lookup "datetime" with
    | some _, some _ => ⟨[⟨EXCHANGE_PUBLISH, name, r⟩], none⟩
    | none, _ => ⟨[], some (.keyError "user_id")⟩
    | some _, none => ⟨[], some (.keyError "datetime")⟩

/-- Models the consuming phase of `run_parser_service`: the broker delivers
a stream of message bodies (each acknowledged on delivery); `parser_callback`
runs on each in turn. An exception escaping the callback propagates out of
`start_consuming` and, being none of the pika exception types named in the
surrounding `except`, terminates the loop: later messages are never
processed. Returns all published messages and the terminating exception,
if any. -/
def run_parser_service (w : World) (name : String) :
    List RawBody → List PubMsg × Option PyErr
  | [] => ([], none)
  | b :: rest =>
    let c := parser_callback w name b
    match c.exn with
    | some e => (c.publishes, some e)
    | none =>
      let r := run_parser_service w name rest
      (c.publishes ++ r.1, r.2)


/-- A minimal world: reads fail with OSError, saves succeed. -/
def wDefault : World :=
  ⟨fun _ => .error (), fun _ => .error .osError, fun _ => true⟩

/-- A world where reads succeed and every artifact save fails with OSError. -/
def wNoSave : World :=
  ⟨fun _ => .ok "BYTES", fun _ => .ok (.obj [("data", .arr [])]), fun _ => false⟩

/-- A snapshot record with exactly the fields pose requires. -/
def vPoseFull : JVal := .obj
  [("user_id", .str "u1"), ("datetime", .str "d1"),
   ("pose_rotation_x", .num 1), ("pose_rotation_y", .num 2),
   ("pose_rotation_z", .num 3), ("pose_rotation_w", .num 4),
   ("pose_translation_x", .num 5), ("pose_translation_y", .num 6),
   ("pose_translation_z", .num 7)]

/-- The result record pose produces from vPoseFull. -/
def rPoseFull : JObj :=
  [("user_id", .str "u1"), ("datetime", .str "d1"),
   ("rotation_x", .num 1), ("rotation_y", .num 2),
   ("rotation_z", .num 3), ("rotation_w", .num 4),
   ("translation_x", .num 5), ("translation_y", .num 6),
   ("translation_z", .num 7)]

/-- A snapshot record with exactly the fields feelings requires. -/
def vFeelFull : JVal := .obj
  [("user_id", .str "u"), ("datetime", .str "t"), ("happiness", .num 1),
   ("thirst", .num 2), ("hunger", .num 3), ("exhaustion", .num 4)]

/-- The depth data file contents used in concrete witnesses. -/
def cDepthContent : JVal :=
  .obj [("data", .arr [.num 10, .num 11, .num 12, .num 13, .num 14, .num 15])]

/-- A world whose depth data file holds six values and whose saves
succeed. -/
def depthWorld : World :=
  ⟨fun _ => .error (), fun _ => .ok cDepthContent, fun _ => true⟩

/-- A snapshot record with exactly the fields depth_image requires,
width 3 and height 2. -/
def fsDepthFull : JObj :=
  [("user_id", .str "u1"), ("datetime", .num 1),
   ("depth_image_path", .str "p"),
   ("depth_image_width", .num 3), ("depth_image_height", .num 2)]

/-- A snapshot record with exactly the fields color_image requires. -/
def fsColorFull : JObj :=
  [("user_id", .str "u"), ("datetime", .str "t"), ("color_image_path", .str "cp"),
   ("color_image_width", .num 2), ("color_image_height", .num 2)]


/-- The registry reduces to the literal four-entry list, in decoration
order. -/
lemma PARSERS_eq : PARSERS = [("pose", pose), ("color_image", color_image),
    ("depth_image", depth_image), ("feelings", feelings)] := rfl

lemma prologue_user_missing {fs : JObj} (h : fs.lookup "user_id" = none) :
    prologue (.value (.obj fs)) = .error (.keyError "user_id") := by
  simp [prologue, jGet, h]

lemma prologue_dt_missing {fs : JObj} {u : JVal}
    (hu : fs.lookup "user_id" = some u) (hd : fs.lookup "datetime" = none) :
    prologue (.value (.obj fs)) = .error (.keyError "datetime") := by
  simp [prologue, jGet, hu, hd]

lemma prologue_ok_of {fs : JObj} {u d : JVal}
    (hu : fs.lookup "user_id" = some u) (hd : fs.lookup "datetime" = some d) :
    prologue (.value (.obj fs)) = .ok (.obj fs, u, d) := by
  simp [prologue, jGet, hu, hd]

lemma prologue_ok_inv {data : RawBody} {v u d : JVal}
    (h : prologue data = .ok (v, u, d)) :
    data = .value v ∧ jGet v "user_id" = .ok u ∧ jGet v "datetime" = .ok d := by
  cases data with
  | malformed => simp [prologue] at h
  | value v0 =>
    simp only [prologue] at h
    cases hu : jGet v0 "user_id" with
    | error e => rw [hu] at h; simp at h
    | ok u0 =>
      rw [hu] at h
      cases hd : jGet v0 "datetime" with
      | error e => rw [hd] at h; simp at h
      | ok d0 =>
        rw [hd] at h
        simp at h
        obtain ⟨h1, h2, h3⟩ := h
        subst h1; subst h2; subst h3
        exact ⟨rfl, hu, hd⟩

lemma remapFields_cons_ok {v : JVal} {o i : String} {spec : List (String × String)}
    {r : JObj} (h : remapFields v ((o, i) :: spec) = .ok r) :
    ∃ x rest, jGet v i = .ok x ∧ remapFields v spec = .ok rest ∧
      r = (o, x) :: rest := by
  unfold remapFields at h
  cases hx : jGet v i with
  | error e => rw [hx] at h; simp at h
  | ok x =>
    rw [hx] at h
    cases hr : remapFields v spec with
    | error e => rw [hr] at h; simp at h
    | ok rest =>
      rw [hr] at h
      simp at h
      exact ⟨x, rest, rfl, rfl, h.symm⟩

lemma remapFields_obj_err {fs : JObj} {k : String} {spec : List (String × String)}
    (hin : k ∈ spec.map Prod.snd) (hmiss : fs.lookup k = none) :
    ∃ k2, remapFields (.obj fs) spec = .error (.keyError k2) := by
  induction spec with
  | nil => simp at hin
  | cons p rest ih =>
    obtain ⟨o, i⟩ := p
    by_cases hik : fs.lookup i = none
    · exact ⟨i, by simp [remapFields, jGet, hik]⟩
    · have hne : i ≠ k := fun he => hik (he ▸ hmiss)
      have hin2 : k ∈ rest.map Prod.snd := by
        simp at hin
        rcases hin with h | h
        · exact absurd h.symm hne
        · simpa using h
      obtain ⟨x, hx⟩ := Option.ne_none_iff_exists'.mp hik
      obtain ⟨k2, hk2⟩ := ih hin2
      refine ⟨k2, ?_⟩
      simp [remapFields, jGet, hx, hk2]

lemma catchKeyError_ok_iff {x : Except PyErr JObj} {r : JObj} :
    catchKeyError x = .ok r ↔ x = .ok r := by
  cases x with
  | ok y => simp [catchKeyError]
  | error e => cases e <;> simp [catchKeyError]

lemma catchKeyOrOS_ok_iff {x : Except PyErr JObj} {r : JObj} :
    catchKeyOrOS x = .ok r ↔ x = .ok r := by
  cases x with
  | ok y => simp [catchKeyOrOS]
  | error e => cases e <;> simp [catchKeyOrOS]

lemma pose_ok_shape {w : World} {data : RawBody} {r : JObj}
    (h : (pose w data).outcome = .ok r) :
    ∃ v u d rest, data = .value v ∧ jGet v "user_id" = .ok u ∧
      jGet v "datetime" = .ok d ∧ r = ("user_id", u) :: ("datetime", d) :: rest := by
  unfold pose at h
  cases hpro : prologue data with
  | error e => rw [hpro] at h; simp at h
  | ok t =>
    obtain ⟨v, u, d⟩ := t
    rw [hpro] at h
    simp only [] at h
    obtain ⟨hdata, hu, hd⟩ := prologue_ok_inv hpro
    have hrm := catchKeyError_ok_iff.mp h
    obtain ⟨x1, r1, hx1, hr1, he1⟩ := remapFields_cons_ok hrm
    obtain ⟨x2, r2, hx2, hr2, he2⟩ := remapFields_cons_ok hr1
    rw [hx1] at hu
    rw [hx2] at hd
    injection hu with hu
    injection hd with hd
    subst hu; subst hd
    exact ⟨v, x1, x2, r2, hdata, hx1, hx2, by rw [he1, he2]⟩

lemma feelings_ok_shape {w : World} {data : RawBody} {r : JObj}
    (h : (feelings w data).outcome = .ok r) :
    ∃ v u d rest, data = .value v ∧ jGet v "user_id" = .ok u ∧
      jGet v "datetime" = .ok d ∧ r = ("user_id", u) :: ("datetime", d) :: rest := by
  unfold feelings at h
  cases hpro : prologue data with
  | error e => rw [hpro] at h; simp at h
  | ok t =>
    obtain ⟨v, u, d⟩ := t
    rw [hpro] at h
    simp only [] at h
    obtain ⟨hdata, hu, hd⟩ := prologue_ok_inv hpro
    have hrm := catchKeyError_ok_iff.mp h
    obtain ⟨x1, r1, hx1, hr1, he1⟩ := remapFields_cons_ok hrm
    obtain ⟨x2, r2, hx2, hr2, he2⟩ := remapFields_cons_ok hr1
    rw [hx1] at hu
    rw [hx2] at hd
    injection hu with hu
    injection hd with hd
    subst hu; subst hd
    exact ⟨v, x1, x2, r2, hdata, hx1, hx2, by rw [he1, he2]⟩

lemma color_body_ok {w : World} {v u d : JVal} {r : JObj}
    (h : (color_image_body w v u d).1 = .ok r) :
    ∃ fp wd ht, r = [("user_id", u), ("datetime", d),
      ("color_image_path", .str fp), ("height", ht), ("width", wd)] := by
  unfold color_image_body at h
  split at h
  · simp at h
  · split at h
    · simp at h
    · split at h
      · simp at h
      · split at h
        · simp at h
        · simp at h
        · split at h
          · simp at h
            exact ⟨_, _, _, h.symm⟩
          · simp at h

lemma depth_body_ok {w : World} {v u d : JVal} {r : JObj}
    (h : (depth_image_body w v u d).1 = .ok r) :
    ∃ fp wd ht, r = [("user_id", u), ("datetime", d),
      ("height", ht), ("width", wd), ("depth_image_path", .str fp)] := by
  unfold depth_image_body at h
  split at h
  · simp at h
  · split at h
    · simp at h
    · split at h
      · simp at h
      · simp at h
      · split at h
        · simp at h
        · split at h
          · simp at h
          · simp at h
          · split at h
            · simp at h
            · split at h
              · simp at h
              · split at h
                · simp at h
                  exact ⟨_, _, _, h.symm⟩
                · simp at h

lemma color_ok_shape {w : World} {data : RawBody} {r : JObj}
    (h : (color_image w data).outcome = .ok r) :
    ∃ v u d rest, data = .value v ∧ jGet v "user_id" = .ok u ∧
      jGet v "datetime" = .ok d ∧ r = ("user_id", u) :: ("datetime", d) :: rest := by
  unfold color_image at h
  cases hpro : prologue data with
  | error e => rw [hpro] at h; simp at h
  | ok t =>
    obtain ⟨v, u, d⟩ := t
    rw [hpro] at h
    simp only [] at h
    obtain ⟨hdata, hu, hd⟩ := prologue_ok_inv hpro
    have hb := catchKeyOrOS_ok_iff.mp h
    obtain ⟨fp, wd, ht, hr⟩ := color_body_ok hb
    exact ⟨v, u, d, _, hdata, hu, hd, by rw [hr]⟩

lemma depth_ok_shape {w : World} {data : RawBody} {r : JObj}
    (h : (depth_image w data).outcome = .ok r) :
    ∃ v u d rest, data = .value v ∧ jGet v "user_id" = .ok u ∧
      jGet v "datetime" = .ok d ∧ r = ("user_id", u) :: ("datetime", d) :: rest := by
  unfold depth_image at h
  cases hpro : prologue data with
  | error e => rw [hpro] at h; simp at h
  | ok t =>
    obtain ⟨v, u, d⟩ := t
    rw [hpro] at h
    simp only [] at h
    obtain ⟨hdata, hu, hd⟩ := prologue_ok_inv hpro
    have hb := catchKeyOrOS_ok_iff.mp h
    obtain ⟨fp, wd, ht, hr⟩ := depth_body_ok hb
    exact ⟨v, u, d, _, hdata, hu, hd, by rw [hr]⟩

/-- Dict assignment always succeeds and a subsequent lookup of the assigned
key sees the new value, whether or not the key was already bound. -/
lemma lookup_dictAssign {α : Type} (d : List (String × α)) (k : String) (x : α) :
    (dictAssign d k x).lookup k = some x := by
  induction d with
  | nil => simp [dictAssign, List.lookup]
  | cons p rest ih =>
    obtain ⟨k0, v0⟩ := p
    by_cases hk : k0 = k
    · subst hk; simp [dictAssign, List.lookup]
    · have hbeq : (k == k0) = false := by
        simp [beq_iff_eq]
        exact fun he => hk he.symm
      simp [dictAssign, if_neg hk, List.lookup, hbeq, ih]

/-- Membership in the registry determines the lookup: the four registered
names are distinct. -/
lemma lookup_of_mem {name : String} {t : Transform}
    (h : (name, t) ∈ PARSERS) : PARSERS.lookup name = some t := by
  rw [PARSERS_eq] at h
  simp at h
  rcases h with ⟨h1, h2⟩ | ⟨h1, h2⟩ | ⟨h1, h2⟩ | ⟨h1, h2⟩ <;>
    subst h1 <;> subst h2 <;> rfl

/-- Every registered transform rejects or fails only through the shared
shapes proved above: a non-rejected result starts with the correlation key
copied from the input record. -/
lemma registered_ok_shape {name : String} {t : Transform}
    (hmem : (name, t) ∈ PARSERS) {w : World} {data : RawBody} {r : JObj}
    (h : (t w data).outcome = .ok r) :
    ∃ v u d rest, data = .value v ∧ jGet v "user_id" = .ok u ∧
      jGet v "datetime" = .ok d ∧ r = ("user_id", u) :: ("datetime", d) :: rest := by
  rw [PARSERS_eq] at hmem
  simp at hmem
  rcases hmem with ⟨h1, h2⟩ | ⟨h1, h2⟩ | ⟨h1, h2⟩ | ⟨h1, h2⟩ <;> subst h2
  · exact pose_ok_shape h
  · exact color_ok_shape h
  · exact depth_ok_shape h
  · exact feelings_ok_shape h

/-- A Python slice with nonnegative ordered bounds is a take after a drop. -/
lemma pySlice_eq {α : Type} (xs : List α) (a b : Int)
    (ha : 0 ≤ a) (hab : a ≤ b) :
    pySlice xs a b = (xs.drop a.toNat).take (b.toNat - a.toNat) := by
  have hb : 0 ≤ b := le_trans ha hab
  have hab2 : a.toNat ≤ b.toNat := Int.toNat_le_toNat hab
  unfold pySlice pyIndex
  rw [if_neg (by omega), if_neg (by omega), List.drop_take]
  rcases le_or_lt a.toNat xs.length with hA | hA
  · rw [min_eq_left hA]
    rcases le_or_lt b.toNat xs.length with hB | hB
    · rw [min_eq_left hB]
    · rw [min_eq_right hB.le]
      have hlen : (xs.drop a.toNat).length = xs.length - a.toNat :=
        List.length_drop a.toNat xs
      rw [List.take_of_length_le hlen.le]
      rw [List.take_of_length_le (by rw [hlen]; omega)]
  · rw [(min_eq_right hA.le : min a.toNat xs.length = xs.length),
        (min_eq_right (by omega) : min b.toNat xs.length = xs.length)]
    rw [List.drop_eq_nil_of_le (le_refl xs.length),
        List.drop_eq_nil_of_le (by omega : xs.length ≤ a.toNat)]
    simp

/-- The reshape on numeric width and height fields: height rows, row i being
the Python slice from i*width of length width-1 (for width at least 1). -/
lemma depthRows_num (arr : List JVal) (wd ht : Nat) (hw : 1 ≤ wd) :
    depthRows arr (.num (wd : Int)) (.num (ht : Int)) =
      .ok ((List.range ht).map fun i => (arr.drop (i * wd)).take (wd - 1)) := by
  have hrow : ∀ i : Nat,
      pySlice arr (Int.ofNat i * (wd : Int)) (Int.ofNat i * (wd : Int) + ((wd : Int) - 1))
        = (arr.drop (i * wd)).take (wd - 1) := by
    intro i
    have hcast : Int.ofNat i * (wd : Int) = ((i * wd : Nat) : Int) := by
      rw [Int.ofNat_eq_coe]; push_cast; ring
    have ha : (0 : Int) ≤ Int.ofNat i * (wd : Int) := by
      rw [hcast]; exact Int.natCast_nonneg _
    have hab : Int.ofNat i * (wd : Int) ≤ Int.ofNat i * (wd : Int) + ((wd : Int) - 1) := by
      omega
    rw [pySlice_eq arr _ _ ha hab]
    have hm : (Int.ofNat i * (wd : Int)).toNat = i * wd := by
      rw [hcast, Int.toNat_natCast]
    have hm2 : (Int.ofNat i * (wd : Int) + ((wd : Int) - 1)).toNat = i * wd + (wd - 1) := by
      rw [hcast]; omega
    rw [hm, hm2]
    congr 1
    omega
  simp only [depthRows, asInt, Int.toNat_natCast]
  by_cases hh : ht = 0
  · subst hh; simp
  · rw [if_neg hh]
    congr 1
    exact List.map_congr_left (fun i _ => hrow i)

/-- The reshape loop cannot fail on numeric width and height fields. -/
lemma depthRows_num_exists (arr : List JVal) (wi hi : Int) :
    ∃ rows, depthRows arr (.num wi) (.num hi) = .ok rows := by
  simp only [depthRows, asInt]
  by_cases hh : hi.toNat = 0
  · rw [if_pos hh]
    exact ⟨[], rfl⟩
  · rw [if_neg hh]
    exact ⟨_, rfl⟩


/-- C1. Claim: a malformed (non-JSON-decodable) body is recovered locally by
every registered transform: logged, dropped with no publish and no result,
and no exception escapes to terminate the Service Loop. Refuted: the
`json.loads` call sits before the `try` block, so the decode error escapes
the transform, escapes `parser_callback`, and (not being one of the pika
exception types the service loop catches) terminates the loop. Witnessed
here on the registered pose transform with a later well-formed message that
is consequently never processed. -/
theorem C1_counterexample :
    (pose wDefault RawBody.malformed).outcome = .exn .decodeError
    ∧ parser_callback wDefault "pose" RawBody.malformed = ⟨[], some .decodeError⟩
    ∧ run_parser_service wDefault "pose" [RawBody.malformed, .value vPoseFull]
        = ([], some .decodeError) :=
  ⟨rfl, rfl, rfl⟩

/-- C1 (amended): for every registered transform, dispatching a malformed
body produces no result and no publish, but the decode failure is not
contained: an uncaught decode exception escapes the transform and the
callback, and the Service Loop terminates on it, leaving any further
messages unprocessed. -/
theorem C1_amended (name : String) (t : Transform) (h : (name, t) ∈ PARSERS)
    (w : World) (rest : List RawBody) :
    t w .malformed = ⟨.exn .decodeError, []⟩
    ∧ parser_callback w name .malformed = ⟨[], some .decodeError⟩
    ∧ run_parser_service w name (.malformed :: rest) = ([], some .decodeError) := by
  have hl := lookup_of_mem h
  have ht : t w .malformed = ⟨.exn .decodeError, []⟩ := by
    rw [PARSERS_eq] at h
    simp at h
    rcases h with ⟨h1, h2⟩ | ⟨h1, h2⟩ | ⟨h1, h2⟩ | ⟨h1, h2⟩ <;> subst h2 <;> rfl
  have hro : run_parser_once w name .malformed = ⟨.exn .decodeError, []⟩ := by
    unfold run_parser_once
    rw [hl]
    exact ht
  have hcb : parser_callback w name .malformed = ⟨[], some .decodeError⟩ := by
    unfold parser_callback
    rw [hro]
  refine ⟨ht, hcb, ?_⟩
  simp only [run_parser_service, hcb]

/-- C1 amended witness: instantiated on the registered pose transform and a
concrete trailing message. -/
theorem C1_amended_witness :
    pose wDefault .malformed = ⟨.exn .decodeError, []⟩
    ∧ parser_callback wDefault "pose" .malformed = ⟨[], some .decodeError⟩
    ∧ run_parser_service wDefault "pose" [.malformed, .value vPoseFull]
        = ([], some .decodeError) :=
  C1_amended "pose" pose (by rw [PARSERS_eq]; exact List.mem_cons_self _ _)
    wDefault [.value vPoseFull]

/-- C2. Claim: the pose output contains the same EIGHT numeric values plus
the correlation key. Refuted on a concrete full input: the output record
has exactly nine fields, of which the non-correlation payload numbers
seven (rotation x/y/z/w and translation x/y/z), not eight. -/
theorem C2_counterexample :
    pose wDefault (.value vPoseFull) = ⟨.ok rPoseFull, []⟩
    ∧ (rPoseFull.filter fun p => p.1 != "user_id" && p.1 != "datetime").length = 7
    ∧ ¬ (rPoseFull.filter fun p => p.1 != "user_id" && p.1 != "datetime").length = 8 :=
  ⟨rfl, rfl, by decide⟩

/-- C2 (amended): for every well-formed SnapshotRecord containing exactly
the required fields for pose, the pose transform returns a ResultRecord
containing the same SEVEN numeric values unchanged (rotation x/y/z/w and
translation x/y/z) plus the correlation key (user_id, datetime), and
performs no filesystem effect. -/
theorem C2_amended (w : World) (u d rx ry rz rw tx ty tz : JVal) :
    pose w (.value (.obj
      [("user_id", u), ("datetime", d),
       ("pose_rotation_x", rx), ("pose_rotation_y", ry),
       ("pose_rotation_z", rz), ("pose_rotation_w", rw),
       ("pose_translation_x", tx), ("pose_translation_y", ty),
       ("pose_translation_z", tz)]))
    = ⟨.ok [("user_id", u), ("datetime", d),
        ("rotation_x", rx), ("rotation_y", ry), ("rotation_z", rz),
        ("rotation_w", rw), ("translation_x", tx), ("translation_y", ty),
        ("translation_z", tz)], []⟩ :=
  rfl

/-- C4. Claim: feelings rejects (with no escaping exception) when any single
required field is missing, where the required fields include user_id and
datetime. Refuted: with user_id absent (all other fields present), the
`logging.debug` subscription raises a KeyError before the `try` block, so
the transform raises instead of rejecting. -/
theorem C4_counterexample :
    (feelings wDefault (.value (.obj
      [("datetime", .str "d1"), ("happiness", .num 1), ("thirst", .num 2),
       ("hunger", .num 3), ("exhaustion", .num 4)]))).outcome
    = .exn (.keyError "user_id") :=
  rfl

/-- C4 (amended): for every SnapshotRecord that carries user_id and datetime
but is missing any single one of the four feelings fields (happiness,
thirst, hunger, exhaustion), the feelings transform returns rejected (no
output) and no exception escapes it; a missing user_id or datetime instead
raises an uncaught KeyError. -/
theorem C4_amended (w : World) (fs : JObj) (u d : JVal) (k : String)
    (hu : fs.lookup "user_id" = some u) (hd : fs.lookup "datetime" = some d)
    (hk : k ∈ ["happiness", "thirst", "hunger", "exhaustion"])
    (hmiss : fs.lookup k = none) :
    (feelings w (.value (.obj fs))).outcome = .rejected := by
  have hpro := prologue_ok_of hu hd
  have hin : k ∈ feelingsFields.map Prod.snd := by
    simp only [feelingsFields, List.map_cons, List.map_nil]
    simp only [List.mem_cons, List.mem_singleton] at hk ⊢
    tauto
  obtain ⟨k2, hk2⟩ := remapFields_obj_err hin hmiss
  unfold feelings
  rw [hpro]
  simp only []
  rw [hk2]
  rfl

/-- C4 amended witness: a record with user_id, datetime, happiness, thirst
and hunger but no exhaustion field is rejected. -/
theorem C4_amended_witness :
    (feelings wDefault (.value (.obj
      [("user_id", .str "u"), ("datetime", .str "d"), ("happiness", .num 1),
       ("thirst", .num 2), ("hunger", .num 3)]))).outcome = .rejected :=
  C4_amended wDefault _ (.str "u") (.str "d") "exhaustion" rfl rfl
    (by simp) rfl

/-- C6. Claim: registering two transforms under one name fails with
DuplicateNameError. Refuted: the `parser` decorator performs a plain dict
assignment, which is total; registering feelings under the name already
bound to pose yields a registry whose single entry now behaves as feelings
(observably different from pose on a feelings record), with no error of
any kind. -/
theorem C6_counterexample :
    (dictAssign (dictAssign ([] : List (String × Transform)) "pose" pose)
        "pose" feelings).map
      (fun p => (p.1, (p.2 wDefault (.value vFeelFull)).outcome))
    = [("pose", .ok [("user_id", .str "u"), ("datetime", .str "t"),
        ("happiness", .num 1), ("thirst", .num 2), ("hunger", .num 3),
        ("exhaustion", .num 4)])]
    ∧ (pose wDefault (.value vFeelFull)).outcome = .rejected :=
  ⟨rfl, rfl⟩

/-- C6 (amended): registration never fails; assigning a transform under a
name always succeeds and a lookup of that name afterwards yields the newly
assigned transform, silently shadowing any transform previously registered
under it. -/
theorem C6_amended (d : List (String × Transform)) (k : String) (t : Transform) :
    (dictAssign d k t).lookup k = some t :=
  lookup_dictAssign d k t

/-- C7. For any transform name not present in the registry, the entry
wrapper reports the full list of registered names (in registration order)
and terminates the process with a non-zero exit status, for either action.
In the source the termination is written `sys.exit(1)`; `sys` is never
imported, so the line actually raises an uncaught NameError, which equally
terminates the interpreter with status 1 after the list was printed. -/
theorem C7_unknown_name (name : String) (w : World) (data : RawBody)
    (action : String) (h : PARSERS.lookup name = none) :
    ∃ names code, run_parser_wrapper name w data action = .exited names code
      ∧ names = error_list_parsers
      ∧ names = ["pose", "color_image", "depth_image", "feelings"]
      ∧ code ≠ 0 := by
  refine ⟨error_list_parsers, 1, ?_, rfl, rfl, by decide⟩
  unfold run_parser_wrapper
  rw [h]
  rfl

/-- C7 witness: the unregistered name "nope" exits non-zero after listing
the four registered names. -/
theorem C7_unknown_name_witness :
    ∃ names code, run_parser_wrapper "nope" wDefault .malformed "once"
        = .exited names code
      ∧ names = error_list_parsers
      ∧ names = ["pose", "color_image", "depth_image", "feelings"]
      ∧ code ≠ 0 :=
  C7_unknown_name "nope" wDefault .malformed "once" rfl

/-- C10. For every registered transform: if the decoded input object lacks
user_id, the transform raises an uncaught KeyError on "user_id" (from the
logging line that precedes the guarded extraction); if user_id is present
but datetime is absent, it raises an uncaught KeyError on "datetime". In
neither case does it return rejected. -/
theorem C10_logging_keyerror (nt : String × Transform) (h : nt ∈ PARSERS)
    (w : World) (fs : JObj) :
    (fs.lookup "user_id" = none →
      (nt.2 w (.value (.obj fs))).outcome = .exn (.keyError "user_id"))
    ∧ (∀ u, fs.lookup "user_id" = some u → fs.lookup "datetime" = none →
      (nt.2 w (.value (.obj fs))).outcome = .exn (.keyError "datetime")) := by
  obtain ⟨name, t⟩ := nt
  rw [PARSERS_eq] at h
  simp at h
  constructor
  · intro hmiss
    have hpro := prologue_user_missing hmiss
    rcases h with ⟨h1, h2⟩ | ⟨h1, h2⟩ | ⟨h1, h2⟩ | ⟨h1, h2⟩ <;> subst h2 <;>
      simp only [pose, color_image, depth_image, feelings, hpro]
  · intro u hu hd
    have hpro := prologue_dt_missing hu hd
    rcases h with ⟨h1, h2⟩ | ⟨h1, h2⟩ | ⟨h1, h2⟩ | ⟨h1, h2⟩ <;> subst h2 <;>
      simp only [pose, color_image, depth_image, feelings, hpro]

/-- C10 witness: depth_image on a record without user_id raises KeyError
"user_id"; on a record with user_id but no datetime it raises KeyError
"datetime". -/
theorem C10_logging_keyerror_witness :
    (depth_image wDefault (.value (.obj [("datetime", .str "d")]))).outcome
      = .exn (.keyError "user_id")
    ∧ (depth_image wDefault (.value (.obj [("user_id", .str "u")]))).outcome
      = .exn (.keyError "datetime") :=
  ⟨(C10_logging_keyerror ("depth_image", depth_image)
      (by rw [PARSERS_eq]; simp) wDefault [("datetime", .str "d")]).1 rfl,
   (C10_logging_keyerror ("depth_image", depth_image)
      (by rw [PARSERS_eq]; simp) wDefault [("user_id", .str "u")]).2
      (.str "u") rfl rfl⟩

/-- C3. For every registered transform, a non-rejected result record
carries the triggering snapshot's user_id and datetime unchanged: the
correlation-key invariant. -/
theorem C3_correlation (nt : String × Transform) (hmem : nt ∈ PARSERS)
    (w : World) (data : RawBody) (r : JObj)
    (h : (nt.2 w data).outcome = .ok r) :
    ∃ v u d, data = .value v ∧ jGet v "user_id" = .ok u ∧
      jGet v "datetime" = .ok d ∧
      r.lookup "user_id" = some u ∧ r.lookup "datetime" = some d := by
  obtain ⟨name, t⟩ := nt
  obtain ⟨v, u, d, rest, hdata, hu, hd, hr⟩ := registered_ok_shape hmem h
  exact ⟨v, u, d, hdata, hu, hd, by rw [hr]; rfl, by rw [hr]; rfl⟩

/-- C3 witness: pose on a full record echoes "u1" and "d1". -/
theorem C3_correlation_witness :
    ∃ v u d, (RawBody.value vPoseFull) = .value v ∧ jGet v "user_id" = .ok u ∧
      jGet v "datetime" = .ok d ∧
      rPoseFull.lookup "user_id" = some u ∧ rPoseFull.lookup "datetime" = some d :=
  C3_correlation ("pose", pose) (by rw [PARSERS_eq]; simp) wDefault
    (.value vPoseFull) rPoseFull rfl

/-- C5. With all depth fields present, the file readable, a numeric width
of at least 1 and a numeric height, the rendered grid has height rows and
row i is exactly the slice of the flat array starting at index i*width of
length width-1; when the array has width*height entries, every row has
exactly width-1 elements (one column is truncated). -/
theorem C5_depth_reshape (w : World) (fs : JObj) (u d : JVal) (p : String)
    (content : JVal) (arr : List JVal) (wd ht : Nat)
    (hu : fs.lookup "user_id" = some u) (hd : fs.lookup "datetime" = some d)
    (hp : fs.lookup "depth_image_path" = some (.str p))
    (hr : w.readJson p = .ok content)
    (hdat : jGet content "data" = .ok (.arr arr))
    (hwd : fs.lookup "depth_image_width" = some (.num (wd : Int)))
    (hht : fs.lookup "depth_image_height" = some (.num (ht : Int)))
    (hsave : w.saveOk (depthFinalPath u d) = true)
    (hw1 : 1 ≤ wd) :
    (depth_image w (.value (.obj fs))).effects =
      [Effect.mkdirP PROCESSED_DIRECTORY,
       Effect.renderHeatmap
         ((List.range ht).map fun i => (arr.drop (i * wd)).take (wd - 1))
         (depthFinalPath u d)]
    ∧ (wd * ht ≤ arr.length →
        ∀ row ∈ (List.range ht).map (fun i => (arr.drop (i * wd)).take (wd - 1)),
          row.length = wd - 1) := by
  have hju : jGet (.obj fs) "user_id" = .ok u := by simp [jGet, hu]
  have hjd : jGet (.obj fs) "datetime" = .ok d := by simp [jGet, hd]
  have hjp : jGet (.obj fs) "depth_image_path" = .ok (.str p) := by simp [jGet, hp]
  have hjw : jGet (.obj fs) "depth_image_width" = .ok (.num (wd : Int)) := by
    simp [jGet, hwd]
  have hjh : jGet (.obj fs) "depth_image_height" = .ok (.num (ht : Int)) := by
    simp [jGet, hht]
  constructor
  · have heval : depth_image w (.value (.obj fs)) =
        ⟨.ok [("user_id", u), ("datetime", d), ("height", .num (ht : Int)),
              ("width", .num (wd : Int)),
              ("depth_image_path", .str (depthFinalPath u d))],
         [.mkdirP PROCESSED_DIRECTORY,
          .renderHeatmap
            ((List.range ht).map fun i => (arr.drop (i * wd)).take (wd - 1))
            (depthFinalPath u d)]⟩ := by
      simp only [depth_image, prologue, depth_image_body, hju, hjd, hjp, asStr,
        hr, hdat, hjw, hjh, asArr, depthRows_num arr wd ht hw1, hsave, if_true,
        catchKeyOrOS]
    rw [heval]
  · intro hlen row hrow
    simp only [List.mem_map, List.mem_range] at hrow
    obtain ⟨i, hi, hrow⟩ := hrow
    subst hrow
    rw [List.length_take, List.length_drop]
    have h2 : (i + 1) * wd ≤ ht * wd :=
      Nat.mul_le_mul_right wd (by omega : i + 1 ≤ ht)
    have h3 : (i + 1) * wd = i * wd + wd := by ring
    have h4 : ht * wd = wd * ht := Nat.mul_comm ht wd
    omega

/-- C5 witness: width 3, height 2, six values; the two rendered rows are
the two-element slices [10, 11] and [13, 14]. -/
theorem C5_depth_reshape_witness :
    (depth_image depthWorld (.value (.obj fsDepthFull))).effects =
      [Effect.mkdirP PROCESSED_DIRECTORY,
       Effect.renderHeatmap
         ((List.range 2).map fun i =>
           (([.num 10, .num 11, .num 12, .num 13, .num 14, .num 15] : List JVal).drop
             (i * 3)).take (3 - 1))
         (depthFinalPath (.str "u1") (.num 1))]
    ∧ (3 * 2 ≤ ([.num 10, .num 11, .num 12, .num 13, .num 14, .num 15] : List JVal).length →
        ∀ row ∈ (List.range 2).map (fun i =>
          (([.num 10, .num 11, .num 12, .num 13, .num 14, .num 15] : List JVal).drop
            (i * 3)).take (3 - 1)),
          row.length = 3 - 1) :=
  C5_depth_reshape depthWorld fsDepthFull (.str "u1") (.num 1) "p"
    cDepthContent [.num 10, .num 11, .num 12, .num 13, .num 14, .num 15] 3 2
    rfl rfl rfl rfl rfl rfl rfl rfl (by decide)

/-- C8. For each consumed message on a registered transform: a returned
result is published exactly once, on the topic exchange processed_data
(distinct from the inbound exchange snapshot), with routing key equal to
the transform name and body equal to the result; a rejection publishes
nothing. -/
theorem C8_publish (name : String) (t : Transform) (hmem : (name, t) ∈ PARSERS)
    (w : World) (body : RawBody) :
    (∀ r, (t w body).outcome = .ok r →
      (parser_callback w name body).publishes = [⟨EXCHANGE_PUBLISH, name, r⟩]
      ∧ EXCHANGE_PUBLISH ≠ EXCHANGE_NAME)
    ∧ ((t w body).outcome = .rejected →
      (parser_callback w name body).publishes = []) := by
  have hl := lookup_of_mem hmem
  have hrun : run_parser_once w name body = t w body := by
    unfold run_parser_once
    rw [hl]
  constructor
  · intro r hok
    obtain ⟨v, u, d, rest, _h1, _h2, _h3, hr⟩ := registered_ok_shape hmem hok
    have hu : r.lookup "user_id" = some u := by rw [hr]; rfl
    have hd : r.lookup "datetime" = some d := by rw [hr]; rfl
    refine ⟨?_, by decide⟩
    unfold parser_callback
    rw [hrun, hok]
    simp only [hu, hd]
  · intro hrej
    unfold parser_callback
    rw [hrun, hrej]

/-- C8 witness: a pose result is published once on processed_data with
routing key "pose". -/
theorem C8_publish_witness :
    (parser_callback wDefault "pose" (.value vPoseFull)).publishes
      = [⟨EXCHANGE_PUBLISH, "pose", rPoseFull⟩]
    ∧ EXCHANGE_PUBLISH ≠ EXCHANGE_NAME :=
  (C8_publish "pose" pose (by rw [PARSERS_eq]; simp) wDefault
    (.value vPoseFull)).1 rPoseFull rfl

/-- C9. For color_image and depth_image, an OSError while reading the
source artifact, or while writing the derived artifact, makes the
transform return rejected: no output and no escaping exception, for
arbitrary records that reach the failing operation. -/
theorem C9_io_failure (w : World) (fs : JObj) (u d : JVal) (p : String)
    (hu : fs.lookup "user_id" = some u) (hd : fs.lookup "datetime" = some d) :
    (fs.lookup "color_image_path" = some (.str p) →
      w.readBytes p = .error () →
      (color_image w (.value (.obj fs))).outcome = .rejected)
    ∧ (∀ bs wv hv, fs.lookup "color_image_path" = some (.str p) →
      w.readBytes p = .ok bs →
      fs.lookup "color_image_width" = some wv →
      fs.lookup "color_image_height" = some hv →
      w.saveOk (colorFinalPath u d) = false →
      (color_image w (.value (.obj fs))).outcome = .rejected)
    ∧ (fs.lookup "depth_image_path" = some (.str p) →
      w.readJson p = .error .osError →
      (depth_image w (.value (.obj fs))).outcome = .rejected)
    ∧ (∀ content arr (wi hi : Int),
      fs.lookup "depth_image_path" = some (.str p) →
      w.readJson p = .ok content →
      jGet content "data" = .ok (.arr arr) →
      fs.lookup "depth_image_width" = some (.num wi) →
      fs.lookup "depth_image_height" = some (.num hi) →
      w.saveOk (depthFinalPath u d) = false →
      (depth_image w (.value (.obj fs))).outcome = .rejected) := by
  have hju : jGet (.obj fs) "user_id" = .ok u := by simp [jGet, hu]
  have hjd : jGet (.obj fs) "datetime" = .ok d := by simp [jGet, hd]
  refine ⟨?_, ?_, ?_, ?_⟩
  · intro hp hread
    have hjp : jGet (.obj fs) "color_image_path" = .ok (.str p) := by
      simp [jGet, hp]
    simp only [color_image, prologue, color_image_body, hju, hjd, hjp, asStr,
      hread, catchKeyOrOS]
  · intro bs wv hv hp hread hwv hhv hsave
    have hjp : jGet (.obj fs) "color_image_path" = .ok (.str p) := by
      simp [jGet, hp]
    have hjw : jGet (.obj fs) "color_image_width" = .ok wv := by
      simp [jGet, hwv]
    have hjh : jGet (.obj fs) "color_image_height" = .ok hv := by
      simp [jGet, hhv]
    simp only [color_image, prologue, color_image_body, hju, hjd, hjp, asStr,
      hread, hjw, hjh, hsave, if_false, Bool.false_eq_true, catchKeyOrOS]
  · intro hp hread
    have hjp : jGet (.obj fs) "depth_image_path" = .ok (.str p) := by
      simp [jGet, hp]
    simp only [depth_image, prologue, depth_image_body, hju, hjd, hjp, asStr,
      hread, catchKeyOrOS]
  · intro content arr wi hi hp hread hdat hwi hhi hsave
    have hjp : jGet (.obj fs) "depth_image_path" = .ok (.str p) := by
      simp [jGet, hp]
    have hjw : jGet (.obj fs) "depth_image_width" = .ok (.num wi) := by
      simp [jGet, hwi]
    have hjh : jGet (.obj fs) "depth_image_height" = .ok (.num hi) := by
      simp [jGet, hhi]
    obtain ⟨rows, hrows⟩ := depthRows_num_exists arr wi hi
    simp only [depth_image, prologue, depth_image_body, hju, hjd, hjp, asStr,
      hread, hdat, hjw, hjh, asArr, hrows, hsave, if_false, Bool.false_eq_true,
      catchKeyOrOS]

/-- C9 witness: concrete read failures (wDefault) and save failures
(wNoSave) on full color and depth records are all rejected. -/
theorem C9_io_failure_witness :
    (color_image wDefault (.value (.obj fsColorFull))).outcome = .rejected
    ∧ (color_image wNoSave (.value (.obj fsColorFull))).outcome = .rejected
    ∧ (depth_image wDefault (.value (.obj fsDepthFull))).outcome = .rejected
    ∧ (depth_image wNoSave (.value (.obj fsDepthFull))).outcome = .rejected :=
  ⟨(C9_io_failure wDefault fsColorFull (.str "u") (.str "t") "cp" rfl rfl).1
      rfl rfl,
   (C9_io_failure wNoSave fsColorFull (.str "u") (.str "t") "cp" rfl rfl).2.1
      "BYTES" (.num 2) (.num 2) rfl rfl rfl rfl rfl,
   (C9_io_failure wDefault fsDepthFull (.str "u1") (.num 1) "p" rfl rfl).2.2.1
      rfl rfl,
   (C9_io_failure wNoSave fsDepthFull (.str "u1") (.num 1) "p" rfl rfl).2.2.2
      (.obj [("data", .arr [])]) [] 3 2 rfl rfl rfl rfl rfl rfl⟩

end Cortex
